import Mathlib

/-!
Verification of the tstd core algebra: a shallow embedding of the
Option and Result sum types, their combinators, the capture constructors
tryCatch / tryPromise, and the pipe composition utility, each translated
from the TypeScript source (src/src/Option.ts, src/src/Result.ts,
src/src/errors/UnknownException.ts). Throwing source functions are embedded
as functions into Except String (the error message of the raised Error);
an effectful zero-argument computation that may raise is embedded as an
Except Exn value (its settled outcome); a zero-argument closure is embedded
as a function out of Unit.
-/

namespace Tstd

/-- Source src/src/Result.ts lines 4-9: Result is a tagged union of
Ok (value) and Err (error). -/
inductive Result (T : Type) (E : Type) where
  | Ok (value : T)
  | Err (error : E)
deriving Repr, DecidableEq

/-- Source src/src/Option.ts lines 7-30: Option is a tagged union of
Some (value) and None. -/
inductive Option (T : Type) where
  | Some (value : T)
  | None
deriving Repr, DecidableEq

namespace Option

/-- Source src/src/Option.ts line 248: isSome is true exactly on the Some tag. -/
def isSome {T : Type} : Option T → Bool
  | .Some _ => true
  | .None => false

/-- Source src/src/Option.ts lines 205-208: isNone is true exactly on the None tag. -/
def isNone {T : Type} : Option T → Bool
  | .None => true
  | .Some _ => false

/-- Source src/src/Option.ts lines 303-308: mapOr wraps fn(value) in Some on a
Some receiver and wraps the eagerly supplied default in Some on None. -/
def mapOr {T U : Type} (defaultValue : U) (fn : T → U) : Option T → Option U
  | .Some value => .Some (fn value)
  | .None => .Some defaultValue

/-- Source src/src/Option.ts lines 323-328: mapOrElse wraps fn(value) in Some on
a Some receiver and wraps the result of the zero-argument defaultFn in Some on
None. -/
def mapOrElse {T U : Type} (defaultFn : Unit → U) (fn : T → U) : Option T → Option U
  | .Some value => .Some (fn value)
  | .None => .Some (defaultFn ())

/-- Source src/src/Option.ts lines 461-466: unwrap returns the contained value
on Some and raises an Error with the fixed message on None; the raise is
embedded as the Except error channel carrying the message. -/
def unwrap {T : Type} : Option T → Except String T
  | .Some value => .ok value
  | .None => .error "Called `Option.unwrap()` on a `None` value"

/-- Source src/src/Option.ts lines 99-106: expect returns the contained value
on Some and raises an Error carrying the caller-supplied message on None. -/
def expect {T : Type} (msg : String) : Option T → Except String T
  | .Some value => .ok value
  | .None => .error msg

/-- Source src/src/Option.ts lines 158-161: flatten returns the inner option of
a Some receiver and None otherwise. -/
def flatten {T : Type} : Option (Option T) → Option T
  | .Some value => value
  | .None => .None

/-- Source src/src/Option.ts lines 432-440: transpose maps Some(Ok v) to
Ok(Some v), Some(Err e) to Err e, and the remaining case None to Ok(None). -/
def transpose {T E : Type} : Option (Result T E) → Result (Option T) E
  | .Some (.Ok value) => .Ok (.Some value)
  | .Some (.Err error) => .Err error
  | .None => .Ok .None

/-- Source src/src/Option.ts lines 544-559: on a Some receiver, xor returns
None when the other option is also Some and the receiver otherwise; on a None
receiver it returns None when the other option is None and the other option
otherwise. -/
def xor {T : Type} (other : Option T) (self : Option T) : Option T :=
  match self with
  | .Some _ => if isSome other then .None else self
  | .None => if isNone other then .None else other

/-- Source src/src/Option.ts lines 576-584: zip pairs the two contained values
when the receiver and the other option are both Some, and returns None
otherwise; the two-element source tuple is embedded as a product. -/
def zip {T U : Type} (other : Option U) (self : Option T) : Option (T × U) :=
  match self, other with
  | .Some s, .Some o => .Some (s, o)
  | _, _ => .None

/-- Source src/src/Option.ts lines 514-522: unzip maps Some (a, b) to the pair
(Some a, Some b) and None to (None, None). -/
def unzip {T U : Type} : Option (T × U) → Option T × Option U
  | .Some (a, b) => (.Some a, .Some b)
  | .None => (.None, .None)

end Option

namespace Result

/-- Source src/src/Result.ts lines 348-353: mapOr returns the bare value fn(x)
on Ok and the bare eagerly supplied default on Err — not re-wrapped. -/
def mapOr {T U E : Type} (defaultValue : U) (fn : T → U) : Result T E → U
  | .Ok value => fn value
  | .Err _ => defaultValue

/-- Source src/src/Result.ts lines 377-382: mapOrElse returns the bare value
fn(x) on Ok and the bare value fnWhenErr(e) on Err — not re-wrapped. -/
def mapOrElse {T U E : Type} (fnWhenErr : E → U) (fn : T → U) : Result T E → U
  | .Ok value => fn value
  | .Err error => fnWhenErr error

/-- Source src/src/Result.ts lines 469-474: unwrap returns the contained value
on Ok and raises an Error with a fixed message on Err; the message does not
mention the contained error. -/
def unwrap {T E : Type} : Result T E → Except String T
  | .Ok value => .ok value
  | .Err _ => .error "Called `unwrap` on an `Err` value"

/-- Source src/src/Result.ts lines 495-500: unwrapErr returns the contained
error on Err and raises an Error with a fixed message on Ok. -/
def unwrapErr {T E : Type} : Result T E → Except String E
  | .Err error => .ok error
  | .Ok _ => .error "Called `unwrapErr` on an `Ok` value"

end Result

/-- Source src/src/errors/UnknownException.ts: UnknownException is a tagged
error carrying the raised failure in its error field; its fixed tag string is
recorded separately in UnknownException.tag. -/
structure UnknownException (Exn : Type) where
  error : Exn
deriving Repr, DecidableEq

/-- The literal discriminant stamped by TaggedError("UnknownException"). -/
def UnknownException.tag : String := "UnknownException"

/-- Source src/src/Result.ts lines 550-557 (function overload of tryCatch): the
wrapped zero-argument computation, embedded as its outcome fn : Except Exn T,
yields Ok of its result when it completes normally and Err of an
UnknownException wrapping the raised failure when it raises. -/
def tryCatch {T Exn : Type} (fn : Except Exn T) : Result T (UnknownException Exn) :=
  match fn with
  | .ok value => .Ok value
  | .error e => .Err (UnknownException.mk e)

/-- Source src/src/Result.ts lines 559-563 (object overload of tryCatch, the
two call shapes modelled as two entry points): runs the try computation and on
a raised failure returns Err of the caller-supplied catch mapping applied to
it. -/
def tryCatchObj {T E Exn : Type} (tryFn : Except Exn T) (catchFn : Exn → E) : Result T E :=
  match tryFn with
  | .ok value => .Ok value
  | .error e => .Err (catchFn e)

/-- Source src/src/Result.ts lines 571-574 (function overload of tryPromise):
the settled outcome of the wrapped promise, embedded as fn : Except Exn T,
resolves to Ok of the fulfilled value and to Err of an UnknownException
wrapping the rejection reason. -/
def tryPromise {T Exn : Type} (fn : Except Exn T) : Result T (UnknownException Exn) :=
  match fn with
  | .ok value => .Ok value
  | .error e => .Err (UnknownException.mk e)

/-- Source src/src/Result.ts lines 577-580 (object overload of tryPromise):
resolves to Ok of the fulfilled value and to Err of the caller-supplied catch
mapping applied to the rejection reason. -/
def tryPromiseObj {T E Exn : Type} (tryFn : Except Exn T) (catchFn : Exn → E) : Result T E :=
  match tryFn with
  | .ok value => .Ok value
  | .error e => .Err (catchFn e)

/-- Modelled from the spec: the pipe source file is code of this repository
that is not under src (only its test in unnamed/part_000 and its callers are
present). Spec section 4.3: pipe accepts a start value and zero or more unary
transformation functions and returns the result of applying them strictly left
to right, each function receiving the prior step's output; with zero functions
it returns the start value unchanged. The variadic tail of unary functions is
modelled as a list of endofunctions applied by a left fold. -/
def pipe {T : Type} (x : T) (fns : List (T → T)) : T :=
  fns.foldl (fun acc f => f acc) x

/-- Claim C1: for every value v and function fn, Option.mapOr(default, fn)
maps Some v to Some (fn v) and None to Some default, and
Option.mapOrElse(defaultFn, fn) maps Some v to Some (fn v) and None to
Some (defaultFn ()) — the result is always a Some-wrapped Option, never a
bare value. -/
theorem C1_option_mapOr_wraps_some :
    (∀ (T U : Type) (v : T) (d : U) (fn : T → U),
      Option.mapOr d fn (.Some v) = Option.Some (fn v)) ∧
    (∀ (T U : Type) (d : U) (fn : T → U),
      Option.mapOr d fn (.None : Option T) = Option.Some d) ∧
    (∀ (T U : Type) (v : T) (defaultFn : Unit → U) (fn : T → U),
      Option.mapOrElse defaultFn fn (.Some v) = Option.Some (fn v)) ∧
    (∀ (T U : Type) (defaultFn : Unit → U) (fn : T → U),
      Option.mapOrElse defaultFn fn (.None : Option T) = Option.Some (defaultFn ())) := by
  refine ⟨?_, ?_, ?_, ?_⟩ <;> intros <;> rfl

/-- Claim C2: for every value x, error e and function f, Result.mapOr(default, f)
maps Ok x to the bare value f x and Err e to the bare default, and
Result.mapOrElse(fnWhenErr, f) maps Ok x to f x and Err e to fnWhenErr e —
the result is the unwrapped value, not re-wrapped in Ok. -/
theorem C2_result_mapOr_bare :
    (∀ (T U E : Type) (x : T) (d : U) (f : T → U),
      Result.mapOr d f (.Ok x : Result T E) = f x) ∧
    (∀ (T U E : Type) (e : E) (d : U) (f : T → U),
      Result.mapOr d f (.Err e : Result T E) = d) ∧
    (∀ (T U E : Type) (x : T) (fnWhenErr : E → U) (f : T → U),
      Result.mapOrElse fnWhenErr f (.Ok x : Result T E) = f x) ∧
    (∀ (T U E : Type) (e : E) (fnWhenErr : E → U) (f : T → U),
      Result.mapOrElse fnWhenErr f (.Err e : Result T E) = fnWhenErr e) := by
  refine ⟨?_, ?_, ?_, ?_⟩ <;> intros <;> rfl

/-- Claim C3: tryCatch and tryPromise return Ok of the result when the wrapped
computation completes normally / fulfills, and return Err — wrapping the
raised or rejected failure in UnknownException by default, or applying the
caller-supplied catch mapping in the object form — when it raises / rejects;
every captured failure becomes a Result value instead of being re-raised,
as each constructor is a total function into Result. -/
theorem C3_capture_constructors :
    (∀ (T Exn : Type) (v : T),
      tryCatch (Except.ok v : Except Exn T) = Result.Ok v) ∧
    (∀ (T Exn : Type) (e : Exn),
      tryCatch (Except.error e : Except Exn T) = Result.Err (UnknownException.mk e)) ∧
    (∀ (T E Exn : Type) (v : T) (catchFn : Exn → E),
      tryCatchObj (Except.ok v : Except Exn T) catchFn = Result.Ok v) ∧
    (∀ (T E Exn : Type) (e : Exn) (catchFn : Exn → E),
      tryCatchObj (Except.error e : Except Exn T) catchFn = Result.Err (catchFn e)) ∧
    (∀ (T Exn : Type) (v : T),
      tryPromise (Except.ok v : Except Exn T) = Result.Ok v) ∧
    (∀ (T Exn : Type) (e : Exn),
      tryPromise (Except.error e : Except Exn T) = Result.Err (UnknownException.mk e)) ∧
    (∀ (T E Exn : Type) (v : T) (catchFn : Exn → E),
      tryPromiseObj (Except.ok v : Except Exn T) catchFn = Result.Ok v) ∧
    (∀ (T E Exn : Type) (e : Exn) (catchFn : Exn → E),
      tryPromiseObj (Except.error e : Except Exn T) catchFn = Result.Err (catchFn e)) := by
  refine ⟨?_, ?_, ?_, ?_, ?_, ?_, ?_, ?_⟩ <;> intros <;> rfl

/-- Claim C4: Option.unwrap returns the contained value on Some x, and on None
raises an error with the exact message written in the source; Option.expect
returns the contained value on Some x and on None raises an error carrying
the caller-supplied message verbatim. No other Option combinator throws: in
this embedding every other combinator is a total function into plain values,
mirroring a source in which unwrap and expect hold the only throw statements. -/
theorem C4_option_unwrap_expect :
    (∀ (T : Type) (x : T), Option.unwrap (.Some x) = Except.ok x) ∧
    (∀ (T : Type), Option.unwrap (.None : Option T) =
      Except.error "Called `Option.unwrap()` on a `None` value") ∧
    (∀ (T : Type) (msg : String), Option.expect msg (.None : Option T) = Except.error msg) ∧
    (∀ (T : Type) (msg : String) (x : T), Option.expect msg (.Some x) = Except.ok x) := by
  refine ⟨?_, ?_, ?_, ?_⟩ <;> intros <;> rfl

/-- Claim C5: Option.transpose maps Some (Ok v) to Ok (Some v), Some (Err e)
to Err e, and None to Ok None — absence transposes to success carrying None
and no failure is synthesized. -/
theorem C5_transpose :
    (∀ (T E : Type) (v : T),
      Option.transpose (.Some (.Ok v) : Option (Result T E)) = Result.Ok (.Some v)) ∧
    (∀ (T E : Type) (e : E),
      Option.transpose (.Some (.Err e) : Option (Result T E)) = Result.Err e) ∧
    (∀ (T E : Type),
      Option.transpose (.None : Option (Result T E)) = Result.Ok .None) := by
  refine ⟨?_, ?_, ?_⟩ <;> intros <;> rfl

/-- Claim C6: xor(other)(self) is Some exactly when exactly one of self and
other is Some, and it returns that one Some; the dual-Some and dual-None
cases return None. -/
theorem C6_xor :
    (∀ (T : Type) (x y : T), Option.xor (.Some y) (.Some x) = (.None : Option T)) ∧
    (∀ (T : Type) (x : T), Option.xor .None (.Some x) = Option.Some x) ∧
    (∀ (T : Type) (y : T), Option.xor (.Some y) (.None : Option T) = Option.Some y) ∧
    (∀ (T : Type), Option.xor .None (.None : Option T) = .None) ∧
    (∀ (T : Type) (self other : Option T),
      Option.isSome (Option.xor other self) = true ↔
        Option.isSome self ≠ Option.isSome other) := by
  refine ⟨?_, ?_, ?_, ?_, ?_⟩
  case _ => intros; rfl
  case _ => intros; rfl
  case _ => intros; rfl
  case _ => intros; rfl
  case _ =>
    intro T self other
    cases self <;> cases other <;>
      simp [Option.xor, Option.isSome, Option.isNone]

/-- Claim C7: zip followed by unzip round-trips on dual-Some inputs, giving
back the pair of the original Somes; zip returns None whenever either side is
None, and unzip maps None to the pair (None, None). -/
theorem C7_zip_unzip_roundtrip :
    (∀ (T U : Type) (a : T) (b : U),
      Option.unzip (Option.zip (.Some b) (.Some a)) = (Option.Some a, Option.Some b)) ∧
    (∀ (T U : Type) (other : Option U),
      Option.zip other (.None : Option T) = .None) ∧
    (∀ (T U : Type) (s : Option T),
      Option.zip (.None : Option U) s = .None) ∧
    (∀ (T U : Type),
      Option.unzip (.None : Option (T × U)) = (.None, .None)) := by
  refine ⟨?_, ?_, ?_, ?_⟩
  case _ => intros; rfl
  case _ => intro T U other; cases other <;> rfl
  case _ => intro T U s; cases s <;> rfl
  case _ => intros; rfl

/-- Claim C8: Option.flatten removes exactly one nesting level per call:
Some (Some x) flattens to Some x, Some None and None flatten to None, and
flattening Some (Some (Some x)) twice yields Some x. -/
theorem C8_flatten_one_level :
    (∀ (T : Type) (x : T), Option.flatten (.Some (.Some x)) = Option.Some x) ∧
    (∀ (T : Type), Option.flatten (Option.Some (.None : Option T)) = .None) ∧
    (∀ (T : Type), Option.flatten (.None : Option (Option T)) = .None) ∧
    (∀ (T : Type) (x : T),
      Option.flatten (Option.flatten (.Some (.Some (.Some x)))) = Option.Some x) := by
  refine ⟨?_, ?_, ?_, ?_⟩ <;> intros <;> rfl

/-- Claim C9: pipe applies its unary functions strictly left to right, feeding
each function's output to the next and returning the final output; with zero
functions it returns the start value unchanged, and on the spec's example with
addOne and double, pipe 1 [addOne, double] evaluates to 4. -/
theorem C9_pipe_left_to_right :
    (∀ (T : Type) (x : T), pipe x [] = x) ∧
    (∀ (T : Type) (x : T) (f : T → T) (fns : List (T → T)),
      pipe x (f :: fns) = pipe (f x) fns) ∧
    pipe 1 [fun n => n + 1, fun n => n * 2] = 4 := by
  refine ⟨?_, ?_, ?_⟩ <;> intros <;> rfl

/-- Claim C10: Result.unwrap on Err e raises an error whose message is the
fixed string written in the source, independent of e (the contained error is
not itself raised), and Result.unwrapErr on Ok x raises an error with its own
fixed message. -/
theorem C10_result_unwrap_fixed_messages :
    (∀ (T E : Type) (e : E),
      Result.unwrap (.Err e : Result T E) =
        Except.error "Called `unwrap` on an `Err` value") ∧
    (∀ (T E : Type) (x : T),
      Result.unwrapErr (.Ok x : Result T E) =
        Except.error "Called `unwrapErr` on an `Ok` value") := by
  refine ⟨?_, ?_⟩ <;> intros <;> rfl

end Tstd
